import Mathlib

/-!
Shallow embedding of prysm/qpoly.py (Forbes Q-polynomial tools).

Scalars and ndarray elements are modelled as real numbers.  An ndarray is a
record of element count, bytes per element, and flattened contents; every
array operation of the source acts elementwise on the contents and keeps the
shape and dtype.  The external grid provider (make_rho_phi_grid) is a
parameter of the cache operations; the backend square root on real scalars is
Real.sqrt.  Cache dictionaries are association lists with first-match lookup,
written to only on a miss, exactly as the source does.
-/

noncomputable section

/-- Model of a numpy ndarray: element count, bytes per element, flattened data. -/
structure NDArr where
  size : ℕ
  itemsize : ℕ
  val : ℕ → ℝ

/-- numpy ndarray.nbytes: total memory footprint of the array. -/
def NDArr.nbytes (a : NDArr) : ℕ := a.size * a.itemsize

/-- Elementwise map, keeping shape and dtype. -/
def NDArr.map (a : NDArr) (f : ℝ → ℝ) : NDArr := ⟨a.size, a.itemsize, fun i => f (a.val i)⟩

/-- Python dict read d[k], returning none when the key is absent. -/
def dict_get {α β : Type} [DecidableEq α] (k : α) : List (α × β) → Option β
  | [] => none
  | (a, b) :: t => if k = a then some b else dict_get k t

/-- A value stored in the P cache dictionaries: the source stores the Python
scalar int 2 for order 0 (qbfs_recurrence_P returns 2, not an array, there)
and numpy arrays for every other order.  A scalar has no nbytes attribute. -/
inductive PyVal where
  | scalar (v : ℝ)
  | arr (a : NDArr)

/-- numpy broadcasting of a cached P value at one grid index: a scalar gives
itself at every element, an array gives its element. -/
def PyVal.el (p : PyVal) (i : ℕ) : ℝ :=
  match p with
  | PyVal.scalar v => v
  | PyVal.arr a => a.val i

/-- The array footprint of a cached P value: arrays report their nbytes; a
scalar is not an array and has none. -/
def PyVal.arr_nbytes (p : PyVal) : ℕ :=
  match p with
  | PyVal.scalar _ => 0
  | PyVal.arr a => a.nbytes

/-- The Python exceptions this model distinguishes. -/
inductive PyErr where
  | attributeError
  | keyError
deriving DecidableEq

/-- qbfs_recurrence_P: P(m+1) from oe-18-19-19700 eq. (2.6), at one grid point x.
The optional arguments mirror the Python keyword arguments Pnm1, Pnm2 and
recursion_coef; a missing argument is recomputed exactly as in the source. -/
def qbfs_recurrence_P (n : ℕ) (x : ℝ) (Pnm1 Pnm2 recursion_coef : Option ℝ) : ℝ :=
  match n with
  | 0 => 2
  | 1 => 6 - 8 * x
  | m + 2 =>
    let Pnm1v := match Pnm1 with
      | some v => v
      | none => qbfs_recurrence_P (m + 1) x none none none
    let Pnm2v := match Pnm2 with
      | some v => v
      | none => qbfs_recurrence_P m x none none none
    let coefv := match recursion_coef with
      | some v => v
      | none => 2 - 4 * x
    coefv * Pnm1v - Pnm2v

/-- qbfs_recurrence_P applied to the whole grid array, as the caches call it:
for order 0 the source's base case returns the Python scalar 2 whatever x is;
every other order produces an array computed elementwise, any precomputed
lower terms broadcasting per element. -/
def qbfs_recurrence_P_nd (m : ℕ) (rho : NDArr) (Pnm1 Pnm2 : Option PyVal) : PyVal :=
  match m with
  | 0 => PyVal.scalar 2
  | _ => PyVal.arr ⟨rho.size, rho.itemsize, fun i =>
      qbfs_recurrence_P m (rho.val i) (Pnm1.map (fun p => p.el i))
        (Pnm2.map (fun p => p.el i)) none⟩

mutual

/-- g_qbfs: g(m-1) from oe-18-19-19700 eq. (A.15). -/
def g_qbfs : ℕ → ℝ
  | 0 => -1 / 2
  | k + 1 => -(1 + g_qbfs k * h_qbfs k) / f_qbfs (k + 1)
termination_by k => (k, 2)

/-- h_qbfs: h(m-2) from oe-18-19-19700 eq. (A.14); the source sets n = k + 2. -/
def h_qbfs (k : ℕ) : ℝ := -((k : ℝ) + 2) * (((k : ℝ) + 2) - 1) / (2 * f_qbfs k)
termination_by (k, 1)

/-- f_qbfs: f(m) from oe-18-19-19700 eq. (A.16). -/
def f_qbfs : ℕ → ℝ
  | 0 => 2
  | 1 => Real.sqrt 19 / 2
  | k + 2 =>
    Real.sqrt (((k : ℝ) + 2) * (((k : ℝ) + 2) + 1) + 3 - g_qbfs (k + 1) ^ 2 - h_qbfs k ^ 2)
termination_by k => (k, 0)

end

/-- qbfs_recurrence_Q: Q(m+1) from oe-18-19-19700 eq. (2.7), at one grid point x.
The optional arguments mirror the Python keyword arguments Pn, Pnm1, Pnm2,
Qnm1, Qnm2 and recursion_coef; a missing argument is recomputed by the same
recursive calls the source makes, including which cached values those calls
are handed. -/
def qbfs_recurrence_Q (n : ℕ) (x : ℝ)
    (Pn Pnm1 Pnm2 Qnm1 Qnm2 recursion_coef : Option ℝ) : ℝ :=
  match n with
  | 0 => 1
  | 1 => 1 / Real.sqrt 19 * (13 - 16 * x)
  | m + 2 =>
    let Pnm2v := match Pnm2 with
      | some v => v
      | none => qbfs_recurrence_P m x none none recursion_coef
    let Pnm1v := match Pnm1 with
      | some v => v
      | none => qbfs_recurrence_P (m + 1) x none (some Pnm2v) recursion_coef
    let Pnv := match Pn with
      | some v => v
      | none => qbfs_recurrence_P (m + 2) x (some Pnm1v) (some Pnm2v) recursion_coef
    let Qnm2v := match Qnm2 with
      | some v => v
      | none =>
        qbfs_recurrence_Q m x (some Pnv) (some Pnm1v) (some Pnm2v) none none recursion_coef
    let Qnm1v := match Qnm1 with
      | some v => v
      | none =>
        qbfs_recurrence_Q (m + 1) x (some Pnv) (some Pnm1v) (some Pnm2v) none (some Qnm2v)
          recursion_coef
    (Pnv - g_qbfs (m + 1) * Qnm1v - h_qbfs m * Qnm2v) / f_qbfs (m + 2)

/-- State of QBFSCache: the Qs, Ps and grids dictionaries, keyed by
(m, samples, rho_max) and, for grids, by key[1:] = (samples, rho_max).  The
P store holds scalar-or-array values because the source caches the scalar 2
for order 0; Q arrays are always arrays (ones_like at order 0). -/
structure QBFSCache where
  Qs : List ((ℕ × ℕ × ℚ) × NDArr)
  Ps : List ((ℕ × ℕ × ℚ) × PyVal)
  grids : List ((ℕ × ℚ) × NDArr)

/-- QBFSCache.__init__, also the state produced by QBFSCache.clear. -/
def QBFSCache.init : QBFSCache := ⟨[], [], []⟩

/-- QBFSCache.get_grid: cached or newly generated grid; a fresh grid is the
elementwise square of the radial array from the external provider. -/
def QBFSCache.get_grid (rho_grid : ℕ → ℚ → NDArr) (c : QBFSCache)
    (samples : ℕ) (rho_max : ℚ) : NDArr × QBFSCache :=
  match dict_get (samples, rho_max) c.grids with
  | some rho => (rho, c)
  | none =>
    let rho := (rho_grid samples rho_max).map (fun v => v ^ 2)
    (rho, { c with grids := ((samples, rho_max), rho) :: c.grids })

/-- QBFSCache.get_PBFS: cached or newly computed P array; for m > 2 the two
lower orders are fetched (and thereby cached) first and handed to the
recurrence. -/
def QBFSCache.get_PBFS (rho_grid : ℕ → ℚ → NDArr) (c : QBFSCache)
    (m samples : ℕ) (rho_max : ℚ) : PyVal × QBFSCache :=
  match dict_get (m, samples, rho_max) c.Ps with
  | some Pm => (Pm, c)
  | none =>
    let r1 := QBFSCache.get_grid rho_grid c samples rho_max
    if 2 < m then
      let r2 := QBFSCache.get_PBFS rho_grid r1.2 (m - 2) samples rho_max
      let r3 := QBFSCache.get_PBFS rho_grid r2.2 (m - 1) samples rho_max
      let Pm := qbfs_recurrence_P_nd m r1.1 (some r3.1) (some r2.1)
      (Pm, { r3.2 with Ps := ((m, samples, rho_max), Pm) :: r3.2.Ps })
    else
      let Pm := qbfs_recurrence_P_nd m r1.1 none none
      (Pm, { r1.2 with Ps := ((m, samples, rho_max), Pm) :: r1.2.Ps })
termination_by m

/-- QBFSCache.get_QBFS: cached or newly computed Q array; for m > 2 the lower
P and Q orders are fetched (and thereby cached) first and handed to the
recurrence. -/
def QBFSCache.get_QBFS (rho_grid : ℕ → ℚ → NDArr) (c : QBFSCache)
    (m samples : ℕ) (rho_max : ℚ) : NDArr × QBFSCache :=
  match dict_get (m, samples, rho_max) c.Qs with
  | some Qm => (Qm, c)
  | none =>
    let r1 := QBFSCache.get_grid rho_grid c samples rho_max
    let r2 := QBFSCache.get_PBFS rho_grid r1.2 m samples rho_max
    if 2 < m then
      let r3 := QBFSCache.get_PBFS rho_grid r2.2 (m - 2) samples rho_max
      let r4 := QBFSCache.get_PBFS rho_grid r3.2 (m - 1) samples rho_max
      let r5 := QBFSCache.get_QBFS rho_grid r4.2 (m - 2) samples rho_max
      let r6 := QBFSCache.get_QBFS rho_grid r5.2 (m - 1) samples rho_max
      let Qm : NDArr := ⟨r1.1.size, r1.1.itemsize, fun i =>
        qbfs_recurrence_Q m (r1.1.val i) (some (r2.1.el i)) (some (r4.1.el i))
          (some (r3.1.el i)) (some (r6.1.val i)) (some (r5.1.val i)) none⟩
      (Qm, { r6.2 with Qs := ((m, samples, rho_max), Qm) :: r6.2.Qs })
    else
      let Qm : NDArr := ⟨r1.1.size, r1.1.itemsize, fun i =>
        qbfs_recurrence_Q m (r1.1.val i) (some (r2.1.el i)) none none none none none⟩
      (Qm, { r2.2 with Qs := ((m, samples, rho_max), Qm) :: r2.2.Qs })
termination_by m

/-- QBFSCache.__call__: delegates to get_QBFS (rho_max defaults to 1). -/
def QBFSCache.call (rho_grid : ℕ → ℚ → NDArr) (c : QBFSCache)
    (m samples : ℕ) : NDArr × QBFSCache :=
  QBFSCache.get_QBFS rho_grid c m samples 1

/-- The loop of the nbytes property, shared by both cache classes: iterate
over the entries of Qs, each time adding the footprints of the Q array, the
P value under the same key, and the grid under key[1:].  A key absent from
Ps or grids raises KeyError; a P value that is the cached scalar (order 0)
has no nbytes attribute, so Python raises AttributeError there. -/
def nbytesLoop (Ps : List ((ℕ × ℕ × ℚ) × PyVal)) (grids : List ((ℕ × ℚ) × NDArr)) :
    List ((ℕ × ℕ × ℚ) × NDArr) → ℕ → Except PyErr ℕ
  | [], n => Except.ok n
  | kv :: t, n =>
    match dict_get kv.1 Ps with
    | none => Except.error PyErr.keyError
    | some (PyVal.scalar _) => Except.error PyErr.attributeError
    | some (PyVal.arr a) =>
      match dict_get kv.1.2 grids with
      | none => Except.error PyErr.keyError
      | some g => nbytesLoop Ps grids t (n + kv.2.nbytes + a.nbytes + g.nbytes)

/-- QBFSCache.nbytes: the Qs-keyed accumulation loop starting from 0. -/
def QBFSCache.nbytes (c : QBFSCache) : Except PyErr ℕ :=
  nbytesLoop c.Ps c.grids c.Qs 0

/-- State of QCONCache: the Qs, Ps and grids dictionaries; like QBFSCache,
the P store holds scalar-or-array values. -/
structure QCONCache where
  Qs : List ((ℕ × ℕ × ℚ) × NDArr)
  Ps : List ((ℕ × ℕ × ℚ) × PyVal)
  grids : List ((ℕ × ℚ) × NDArr)

/-- QCONCache.__init__, also the state produced by QCONCache.clear. -/
def QCONCache.init : QCONCache := ⟨[], [], []⟩

/-- QCONCache.get_grid: cached or newly generated grid; a fresh grid is the
radial array from the external provider, squared and then remapped by
x maps to 2x - 1. -/
def QCONCache.get_grid (rho_grid : ℕ → ℚ → NDArr) (c : QCONCache)
    (samples : ℕ) (rho_max : ℚ) : NDArr × QCONCache :=
  match dict_get (samples, rho_max) c.grids with
  | some rho => (rho, c)
  | none =>
    let rho := (rho_grid samples rho_max).map (fun v => 2 * v ^ 2 - 1)
    (rho, { c with grids := ((samples, rho_max), rho) :: c.grids })

/-- QCONCache.get_PBFS: textually identical to QBFSCache.get_PBFS but uses the
Qcon grid. -/
def QCONCache.get_PBFS (rho_grid : ℕ → ℚ → NDArr) (c : QCONCache)
    (m samples : ℕ) (rho_max : ℚ) : PyVal × QCONCache :=
  match dict_get (m, samples, rho_max) c.Ps with
  | some Pm => (Pm, c)
  | none =>
    let r1 := QCONCache.get_grid rho_grid c samples rho_max
    if 2 < m then
      let r2 := QCONCache.get_PBFS rho_grid r1.2 (m - 2) samples rho_max
      let r3 := QCONCache.get_PBFS rho_grid r2.2 (m - 1) samples rho_max
      let Pm := qbfs_recurrence_P_nd m r1.1 (some r3.1) (some r2.1)
      (Pm, { r3.2 with Ps := ((m, samples, rho_max), Pm) :: r3.2.Ps })
    else
      let Pm := qbfs_recurrence_P_nd m r1.1 none none
      (Pm, { r1.2 with Ps := ((m, samples, rho_max), Pm) :: r1.2.Ps })
termination_by m

/-- QCONCache.get_QCON: on a miss with m > 2 the source, after fetching the
grid and the three P arrays, calls self.get_QBFS, a method the QCONCache
class does not define, so Python raises AttributeError at that point. -/
def QCONCache.get_QCON (rho_grid : ℕ → ℚ → NDArr) (c : QCONCache)
    (m samples : ℕ) (rho_max : ℚ) : Except PyErr (NDArr × QCONCache) :=
  match dict_get (m, samples, rho_max) c.Qs with
  | some Qm => Except.ok (Qm, c)
  | none =>
    let r1 := QCONCache.get_grid rho_grid c samples rho_max
    let r2 := QCONCache.get_PBFS rho_grid r1.2 m samples rho_max
    if 2 < m then
      let r3 := QCONCache.get_PBFS rho_grid r2.2 (m - 2) samples rho_max
      let _r4 := QCONCache.get_PBFS rho_grid r3.2 (m - 1) samples rho_max
      Except.error PyErr.attributeError
    else
      let Qm : NDArr := ⟨r1.1.size, r1.1.itemsize, fun i =>
        qbfs_recurrence_Q m (r1.1.val i) (some (r2.1.el i)) none none none none none⟩
      Except.ok (Qm, { r2.2 with Qs := ((m, samples, rho_max), Qm) :: r2.2.Qs })

/-- QCONCache.__call__: delegates to get_QCON (rho_max defaults to 1). -/
def QCONCache.call (rho_grid : ℕ → ℚ → NDArr) (c : QCONCache)
    (m samples : ℕ) : Except PyErr (NDArr × QCONCache) :=
  QCONCache.get_QCON rho_grid c m samples 1

/-- QCONCache.nbytes: same loop over the Qs keys as QBFSCache.nbytes. -/
def QCONCache.nbytes (c : QCONCache) : Except PyErr ℕ :=
  nbytesLoop c.Ps c.grids c.Qs 0

open scoped Classical in
/-- One iteration of the loop in QPolySag1D.build for the Qbfs family: skip a
term whose coefficient equals 0, otherwise fetch the cached Q term and add
coef times the term into the accumulated phase. -/
def qbfsBuildStep (rho_grid : ℕ → ℚ → NDArr) (samples : ℕ) (coefs : ℕ → ℝ)
    (acc : NDArr × QBFSCache) (term : ℕ) : NDArr × QBFSCache :=
  if coefs term = 0 then acc
  else
    let r := QBFSCache.call rho_grid acc.2 term samples
    (⟨acc.1.size, acc.1.itemsize, fun i => acc.1.val i + coefs term * r.1.val i⟩, r.2)

/-- QPolySag1D.build for the Qbfs family: a zero phase array of shape
(samples, samples) and dtype config.precision, then the coefficient-weighted
terms accumulated over the orders sorted ascending.  The coefficient mapping
is modelled as its insertion-ordered key list together with a value map. -/
def QPolySag1D_build_qbfs (rho_grid : ℕ → ℚ → NDArr) (precision : ℕ)
    (coefKeys : List ℕ) (coefs : ℕ → ℝ) (samples : ℕ) (c : QBFSCache) :
    NDArr × QBFSCache :=
  (List.insertionSort (· ≤ ·) coefKeys).foldl (qbfsBuildStep rho_grid samples coefs)
    (⟨samples * samples, precision, fun _ => 0⟩, c)

/-- QBFSSag.build: the shared linear combination, then the phase multiplied
elementwise by r2 * (1 - r2) where r2 is the cached Qbfs grid. -/
def QBFSSag_build (rho_grid : ℕ → ℚ → NDArr) (precision : ℕ)
    (coefKeys : List ℕ) (coefs : ℕ → ℝ) (samples : ℕ) (c : QBFSCache) :
    NDArr × QBFSCache :=
  let r0 := QPolySag1D_build_qbfs rho_grid precision coefKeys coefs samples c
  let r := QBFSCache.get_grid rho_grid r0.2 samples 1
  (⟨r0.1.size, r0.1.itemsize, fun i => r0.1.val i * (r.1.val i * (1 - r.1.val i))⟩, r.2)

open scoped Classical in
/-- One iteration of the loop in QPolySag1D.build for the Qcon family; the
cache call can raise, and the exception propagates out of the loop. -/
def qconBuildStep (rho_grid : ℕ → ℚ → NDArr) (samples : ℕ) (coefs : ℕ → ℝ)
    (acc : Except PyErr (NDArr × QCONCache)) (term : ℕ) :
    Except PyErr (NDArr × QCONCache) :=
  match acc with
  | Except.error e => Except.error e
  | Except.ok (phase, st) =>
    if coefs term = 0 then Except.ok (phase, st)
    else
      match QCONCache.call rho_grid st term samples with
      | Except.error e => Except.error e
      | Except.ok (Qm, st2) =>
        Except.ok (⟨phase.size, phase.itemsize, fun i => phase.val i + coefs term * Qm.val i⟩,
          st2)

/-- QPolySag1D.build for the Qcon family. -/
def QPolySag1D_build_qcon (rho_grid : ℕ → ℚ → NDArr) (precision : ℕ)
    (coefKeys : List ℕ) (coefs : ℕ → ℝ) (samples : ℕ) (c : QCONCache) :
    Except PyErr (NDArr × QCONCache) :=
  (List.insertionSort (· ≤ ·) coefKeys).foldl (qconBuildStep rho_grid samples coefs)
    (Except.ok (⟨samples * samples, precision, fun _ => 0⟩, c))

/-- QCONSag.build: the shared linear combination, then the phase multiplied
elementwise by r2 * (1 - r2) where r2 is the cached Qcon grid (which stores
2 rho^2 - 1, not rho^2). -/
def QCONSag_build (rho_grid : ℕ → ℚ → NDArr) (precision : ℕ)
    (coefKeys : List ℕ) (coefs : ℕ → ℝ) (samples : ℕ) (c : QCONCache) :
    Except PyErr (NDArr × QCONCache) :=
  match QPolySag1D_build_qcon rho_grid precision coefKeys coefs samples c with
  | Except.error e => Except.error e
  | Except.ok (phase, st) =>
    let r := QCONCache.get_grid rho_grid st samples 1
    Except.ok (⟨phase.size, phase.itemsize, fun i => phase.val i * (r.1.val i * (1 - r.1.val i))⟩,
      r.2)

/-- A concrete external grid provider used for closed evaluations: every
radial sample is 0 (the aperture center) and each element occupies 8 bytes. -/
def rho_grid0 : ℕ → ℚ → NDArr := fun s _ => ⟨s * s, 8, fun _ => 0⟩

/-- Reading of the spec sentence for byte_size, for comparison with the
QBFSCache.nbytes of the source: the sum of the memory footprint of every
array currently cached, across all three stores, each array counted once (a
cached scalar is not an array and has no footprint). -/
def QBFSCache.byte_size_spec (c : QBFSCache) : ℕ :=
  (c.Qs.map (fun kv => kv.2.nbytes)).sum + (c.Ps.map (fun kv => kv.2.arr_nbytes)).sum
    + (c.grids.map (fun kv => kv.2.nbytes)).sum

/-- C2: the Qbfs P-recurrence matches its specified definition at every point:
P(0) = 2, P(1) = 6 - 8x, and for n at least 2, with no precomputed terms
supplied, P(n) = (2 - 4x) P(n-1) - P(n-2). -/
theorem qbfs_recurrence_P_matches_spec (x : ℝ) :
    qbfs_recurrence_P 0 x none none none = 2 ∧
    qbfs_recurrence_P 1 x none none none = 6 - 8 * x ∧
    ∀ n : ℕ, 2 ≤ n →
      qbfs_recurrence_P n x none none none =
        (2 - 4 * x) * qbfs_recurrence_P (n - 1) x none none none
          - qbfs_recurrence_P (n - 2) x none none none := by
  refine ⟨rfl, rfl, ?_⟩
  intro n hn
  obtain ⟨m, rfl⟩ : ∃ m, n = m + 2 := ⟨n - 2, by omega⟩
  have h1 : m + 2 - 1 = m + 1 := by omega
  have h2 : m + 2 - 2 = m := by omega
  rw [h1, h2]
  rfl

/-- Witness for the n at least 2 part of the P-recurrence theorem, at n = 2
and x = 0. -/
theorem qbfs_recurrence_P_matches_spec_witness :
    qbfs_recurrence_P 2 0 none none none =
      (2 - 4 * 0) * qbfs_recurrence_P (2 - 1) 0 none none none
        - qbfs_recurrence_P (2 - 2) 0 none none none :=
  (qbfs_recurrence_P_matches_spec 0).2.2 2 (by norm_num)

/-- C6: the Qbfs recursion-constant generators satisfy their specified closed
forms and recurrences: f(0) = 2, f(1) = sqrt 19 / 2,
f(n) = sqrt (n (n+1) + 3 - g(n-1)^2 - h(n-2)^2) for n at least 2;
g(0) = -1/2 and g(n-1) = -(1 + g(n-2) h(n-2)) / f(n-1) for n at least 2;
h(n-2) = -n (n-1) / (2 f(n-2)) for n at least 2. -/
theorem qbfs_constants_match_spec :
    (f_qbfs 0 = 2 ∧ f_qbfs 1 = Real.sqrt 19 / 2 ∧
      ∀ n : ℕ, 2 ≤ n →
        f_qbfs n =
          Real.sqrt ((n : ℝ) * ((n : ℝ) + 1) + 3 - g_qbfs (n - 1) ^ 2 - h_qbfs (n - 2) ^ 2)) ∧
    (g_qbfs 0 = -(1 / 2) ∧
      ∀ n : ℕ, 2 ≤ n →
        g_qbfs (n - 1) = -(1 + g_qbfs (n - 2) * h_qbfs (n - 2)) / f_qbfs (n - 1)) ∧
    (∀ n : ℕ, 2 ≤ n → h_qbfs (n - 2) = -(n : ℝ) * ((n : ℝ) - 1) / (2 * f_qbfs (n - 2))) := by
  refine ⟨⟨by simp [f_qbfs], by simp [f_qbfs], ?_⟩, ⟨by norm_num [g_qbfs], ?_⟩, ?_⟩
  · intro n hn
    obtain ⟨m, rfl⟩ : ∃ m, n = m + 2 := ⟨n - 2, by omega⟩
    have h1 : m + 2 - 1 = m + 1 := by omega
    have h2 : m + 2 - 2 = m := by omega
    rw [h1, h2, f_qbfs]
    congr 1
    push_cast
    ring
  · intro n hn
    obtain ⟨m, rfl⟩ : ∃ m, n = m + 2 := ⟨n - 2, by omega⟩
    have h1 : m + 2 - 1 = m + 1 := by omega
    have h2 : m + 2 - 2 = m := by omega
    rw [h1, h2, g_qbfs]
  · intro n hn
    obtain ⟨m, rfl⟩ : ∃ m, n = m + 2 := ⟨n - 2, by omega⟩
    have h2 : m + 2 - 2 = m := by omega
    rw [h2, h_qbfs]
    push_cast
    ring

/-- Witness for the n at least 2 parts of the constants theorem, at n = 2. -/
theorem qbfs_constants_match_spec_witness :
    f_qbfs 2 =
      Real.sqrt (((2 : ℕ) : ℝ) * (((2 : ℕ) : ℝ) + 1) + 3
        - g_qbfs (2 - 1) ^ 2 - h_qbfs (2 - 2) ^ 2) ∧
    g_qbfs (2 - 1) = -(1 + g_qbfs (2 - 2) * h_qbfs (2 - 2)) / f_qbfs (2 - 1) ∧
    h_qbfs (2 - 2) = -((2 : ℕ) : ℝ) * (((2 : ℕ) : ℝ) - 1) / (2 * f_qbfs (2 - 2)) :=
  ⟨qbfs_constants_match_spec.1.2.2 2 (by norm_num),
    qbfs_constants_match_spec.2.1.2 2 (by norm_num),
    qbfs_constants_match_spec.2.2 2 (by norm_num)⟩

/-- C1 fails on the code: at order n = 3 and grid value x = 1/2, the
Q-recurrence called with no precomputed terms does not equal
(P(3) - g(2) Q(2) - h(1) Q(1)) / f(3): the recursive fallback hands the
order-3 P arrays to the order-2 subcall (and the freshly computed Q(1) where
Q(0) belongs), corrupting the chained Q(2) value. -/
theorem qbfs_recurrence_Q_breaks_recurrence_at_three :
    qbfs_recurrence_Q 3 (1/2 : ℝ) none none none none none none ≠
      (qbfs_recurrence_P 3 (1/2) none none none
        - g_qbfs 2 * qbfs_recurrence_Q 2 (1/2) none none none none none none
        - h_qbfs 1 * qbfs_recurrence_Q 1 (1/2) none none none none none none) / f_qbfs 3 := by
  have h19 : (0:ℝ) < Real.sqrt 19 := Real.sqrt_pos.mpr (by norm_num)
  have hsq : Real.sqrt 19 ^ 2 = 19 := Real.sq_sqrt (by norm_num)
  have hss : Real.sqrt 19 * Real.sqrt 19 = 19 := Real.mul_self_sqrt (by norm_num)
  have hh0 : h_qbfs 0 = -1 / 2 := by rw [h_qbfs]; norm_num [f_qbfs]
  have hg1 : g_qbfs 1 = -5 / (2 * Real.sqrt 19) := by
    rw [show (1:ℕ) = 0 + 1 from rfl, g_qbfs, h_qbfs]
    norm_num [g_qbfs, f_qbfs]
    field_simp
    ring
  have hh1 : h_qbfs 1 = -6 / Real.sqrt 19 := by
    rw [h_qbfs]
    norm_num [f_qbfs]
    field_simp
  have hf2 : f_qbfs 2 = Real.sqrt (160 / 19) := by
    rw [show (2:ℕ) = 0 + 2 from rfl, f_qbfs, hg1, hh0]
    congr 1
    rw [div_pow, neg_pow, mul_pow, hsq]
    norm_num
  have hf2pos : 0 < f_qbfs 2 := by
    rw [hf2]; exact Real.sqrt_pos.mpr (by norm_num)
  have hf2sq : f_qbfs 2 ^ 2 = 160 / 19 := by
    rw [hf2]; exact Real.sq_sqrt (by norm_num)
  have hmul : g_qbfs 1 * h_qbfs 1 = 15 / 19 := by
    rw [hg1, hh1, div_mul_div_comm, neg_mul_neg]
    rw [show (2 * Real.sqrt 19) * Real.sqrt 19 = 2 * 19 by rw [mul_assoc, hss]]
    norm_num
  have hg2 : g_qbfs 2 = -(34 / 19) / f_qbfs 2 := by
    rw [show (2:ℕ) = 1 + 1 from rfl, g_qbfs, hmul]
    norm_num
  have hg2ne : g_qbfs 2 ≠ 0 := by
    rw [hg2]
    exact ne_of_lt (div_neg_of_neg_of_pos (by norm_num) hf2pos)
  have hg2sq : g_qbfs 2 ^ 2 = 289 / 760 := by
    rw [hg2, div_pow, hf2sq]
    norm_num
  have hh1sq : h_qbfs 1 ^ 2 = 36 / 19 := by
    rw [hh1, div_pow, hsq]
    norm_num
  have hf3pos : 0 < f_qbfs 3 := by
    rw [show (3:ℕ) = 1 + 2 from rfl, f_qbfs]
    apply Real.sqrt_pos.mpr
    rw [hg2sq, hh1sq]
    norm_num
  have eP3 : qbfs_recurrence_P 3 (1/2 : ℝ) none none none = -2 := by
    norm_num [qbfs_recurrence_P]
  have eQ1 : qbfs_recurrence_Q 1 (1/2 : ℝ) none none none none none none
      = 1 / Real.sqrt 19 * 5 := by
    norm_num [qbfs_recurrence_Q]
  have eQ2 : qbfs_recurrence_Q 2 (1/2 : ℝ) none none none none none none
      = (-2 - g_qbfs 1 * (1 / Real.sqrt 19 * 5) - h_qbfs 0 * 1) / f_qbfs 2 := by
    norm_num [qbfs_recurrence_Q, qbfs_recurrence_P]
  have eQ3 : qbfs_recurrence_Q 3 (1/2 : ℝ) none none none none none none
      = (-2 - g_qbfs 2 *
          ((-2 - g_qbfs 1 * (1 / Real.sqrt 19 * 5) - h_qbfs 0 * (1 / Real.sqrt 19 * 5))
            / f_qbfs 2)
        - h_qbfs 1 * (1 / Real.sqrt 19 * 5)) / f_qbfs 3 := by
    norm_num [qbfs_recurrence_Q, qbfs_recurrence_P]
  rw [eQ3, eP3, eQ2, eQ1]
  intro heq
  have h1 := (div_left_inj' (ne_of_gt hf3pos)).mp heq
  have h2 : g_qbfs 2 *
      ((-2 - g_qbfs 1 * (1 / Real.sqrt 19 * 5) - h_qbfs 0 * (1 / Real.sqrt 19 * 5)) / f_qbfs 2)
      = g_qbfs 2 *
      ((-2 - g_qbfs 1 * (1 / Real.sqrt 19 * 5) - h_qbfs 0 * 1) / f_qbfs 2) := by
    linarith
  have h3 := mul_left_cancel₀ hg2ne h2
  have h4 := (div_left_inj' (ne_of_gt hf2pos)).mp h3
  rw [hh0] at h4
  have h5 : (1 / Real.sqrt 19 * 5 : ℝ) = 1 := by linarith
  have h6 : Real.sqrt 19 = 5 := by
    field_simp at h5
    linarith
  rw [h6] at hsq
  norm_num at hsq

/-- C5: on a grid-cache miss, the Qbfs cache builds, returns and stores the
squared radial coordinate of the external provider, while the Qcon cache
builds, returns and stores 2 rho^2 - 1, each transform applied exactly once
at grid-build time. -/
theorem get_grid_family_transforms (rho_grid : ℕ → ℚ → NDArr)
    (cb : QBFSCache) (cc : QCONCache) (samples : ℕ) (rho_max : ℚ)
    (hb : dict_get (samples, rho_max) cb.grids = none)
    (hc : dict_get (samples, rho_max) cc.grids = none) :
    (∀ i, ((QBFSCache.get_grid rho_grid cb samples rho_max).1).val i
        = (rho_grid samples rho_max).val i ^ 2) ∧
    dict_get (samples, rho_max) ((QBFSCache.get_grid rho_grid cb samples rho_max).2).grids
        = some (QBFSCache.get_grid rho_grid cb samples rho_max).1 ∧
    (∀ i, ((QCONCache.get_grid rho_grid cc samples rho_max).1).val i
        = 2 * (rho_grid samples rho_max).val i ^ 2 - 1) ∧
    dict_get (samples, rho_max) ((QCONCache.get_grid rho_grid cc samples rho_max).2).grids
        = some (QCONCache.get_grid rho_grid cc samples rho_max).1 := by
  refine ⟨?_, ?_, ?_, ?_⟩ <;>
    simp [QBFSCache.get_grid, QCONCache.get_grid, hb, hc, NDArr.map, dict_get]

/-- Witness for the grid-transform theorem: fresh caches, the concrete
provider, samples = 4 and rho_max = 1. -/
theorem get_grid_family_transforms_witness :
    (∀ i, ((QBFSCache.get_grid rho_grid0 QBFSCache.init 4 1).1).val i
        = (rho_grid0 4 1).val i ^ 2) ∧
    dict_get (4, 1) ((QBFSCache.get_grid rho_grid0 QBFSCache.init 4 1).2).grids
        = some (QBFSCache.get_grid rho_grid0 QBFSCache.init 4 1).1 ∧
    (∀ i, ((QCONCache.get_grid rho_grid0 QCONCache.init 4 1).1).val i
        = 2 * (rho_grid0 4 1).val i ^ 2 - 1) ∧
    dict_get (4, 1) ((QCONCache.get_grid rho_grid0 QCONCache.init 4 1).2).grids
        = some (QCONCache.get_grid rho_grid0 QCONCache.init 4 1).1 :=
  get_grid_family_transforms rho_grid0 QBFSCache.init QCONCache.init 4 1 rfl rfl

/-- C4: for any order m > 2 whose key is not in the Qcon Q store, get_QCON
(and hence the callable entry point) ends in AttributeError, because the
source calls self.get_QBFS, which QCONCache does not define; so Qcon
evaluation cannot produce a result for any order above 2 on a fresh or
cleared cache. -/
theorem get_QCON_raises_for_high_order (rho_grid : ℕ → ℚ → NDArr)
    (c : QCONCache) (m samples : ℕ) (rho_max : ℚ)
    (hm : 2 < m) (hmiss : dict_get (m, samples, rho_max) c.Qs = none) :
    QCONCache.get_QCON rho_grid c m samples rho_max = Except.error PyErr.attributeError ∧
    (dict_get (m, samples, 1) c.Qs = none →
      QCONCache.call rho_grid c m samples = Except.error PyErr.attributeError) := by
  constructor
  · simp [QCONCache.get_QCON, hmiss, hm]
  · intro hmiss1
    simp [QCONCache.call, QCONCache.get_QCON, hmiss1, hm]

/-- Witness for the Qcon AttributeError theorem: order 3 on a fresh cache. -/
theorem get_QCON_raises_for_high_order_witness :
    QCONCache.get_QCON rho_grid0 QCONCache.init 3 4 1 = Except.error PyErr.attributeError ∧
    (dict_get (3, 4, 1) QCONCache.init.Qs = none →
      QCONCache.call rho_grid0 QCONCache.init 3 4 = Except.error PyErr.attributeError) :=
  get_QCON_raises_for_high_order rho_grid0 QCONCache.init 3 4 1 (by norm_num) rfl

/-- Sorting ascending is invariant under permutation of the input list. -/
lemma insertionSort_eq_of_perm (l1 l2 : List ℕ) (h : l1.Perm l2) :
    List.insertionSort (· ≤ ·) l1 = List.insertionSort (· ≤ ·) l2 :=
  List.eq_of_perm_of_sorted
    ((List.perm_insertionSort _ l1).trans (h.trans (List.perm_insertionSort _ l2).symm))
    (List.sorted_insertionSort _ l1) (List.sorted_insertionSort _ l2)

/-- Sorting ascending commutes with erasing a key. -/
lemma insertionSort_erase (k : ℕ) (l : List ℕ) :
    List.insertionSort (· ≤ ·) (l.erase k) = (List.insertionSort (· ≤ ·) l).erase k :=
  List.eq_of_perm_of_sorted
    ((List.perm_insertionSort _ _).trans ((List.perm_insertionSort _ l).erase k).symm)
    (List.sorted_insertionSort _ _)
    ((List.sorted_insertionSort _ l).sublist (List.erase_sublist k _))

/-- Folding over a list with a step that fixes every accumulator at key k is
unchanged when k is erased from the list. -/
lemma foldl_erase_of_fix {α β : Type} [DecidableEq β] (f : α → β → α) (k : β)
    (hk : ∀ a, f a k = a) : ∀ (l : List β) (a : α), (l.erase k).foldl f a = l.foldl f a := by
  intro l
  induction l with
  | nil => intro a; rfl
  | cons b t ih =>
    intro a
    by_cases hb : b = k
    · subst hb
      rw [List.erase_cons_head]
      simp [hk]
    · rw [List.erase_cons_tail (by simpa using hb)]
      simp [ih]

/-- C7: the Qbfs sag builder is deterministic in the iteration order of the
coefficient mapping: key lists that are permutations of each other produce
identical sag arrays and identical cache states, because the orders are
summed in ascending numeric order enforced internally. -/
theorem build_independent_of_insertion_order (rho_grid : ℕ → ℚ → NDArr)
    (precision : ℕ) (l1 l2 : List ℕ) (coefs : ℕ → ℝ) (samples : ℕ) (c : QBFSCache)
    (h : l1.Perm l2) :
    QBFSSag_build rho_grid precision l1 coefs samples c
      = QBFSSag_build rho_grid precision l2 coefs samples c := by
  unfold QBFSSag_build QPolySag1D_build_qbfs
  rw [insertionSort_eq_of_perm l1 l2 h]

/-- Witness for order independence: the key lists [0, 4, 9] and [9, 0, 4]. -/
theorem build_independent_of_insertion_order_witness :
    QBFSSag_build rho_grid0 8 [0, 4, 9] (fun n => (n : ℝ)) 4 QBFSCache.init
      = QBFSSag_build rho_grid0 8 [9, 0, 4] (fun n => (n : ℝ)) 4 QBFSCache.init :=
  build_independent_of_insertion_order rho_grid0 8 [0, 4, 9] [9, 0, 4]
    (fun n => (n : ℝ)) 4 QBFSCache.init (by decide)

/-- C8: an order whose coefficient is exactly 0 is skipped by the Qbfs sag
builder: the sag array and the final cache state are identical to those of a
build with that key omitted, so the zero-coefficient order triggers no cache
access. -/
theorem build_skips_zero_coefficient (rho_grid : ℕ → ℚ → NDArr)
    (precision : ℕ) (l : List ℕ) (coefs : ℕ → ℝ) (k samples : ℕ) (c : QBFSCache)
    (h0 : coefs k = 0) :
    QBFSSag_build rho_grid precision l coefs samples c
      = QBFSSag_build rho_grid precision (l.erase k) coefs samples c := by
  unfold QBFSSag_build QPolySag1D_build_qbfs
  rw [insertionSort_erase,
    foldl_erase_of_fix (qbfsBuildStep rho_grid samples coefs) k
      (fun a => by simp [qbfsBuildStep, h0])]

/-- Witness for the zero-coefficient skip: key 3 carries coefficient 0 in the
mapping with keys [0, 3]. -/
theorem build_skips_zero_coefficient_witness :
    QBFSSag_build rho_grid0 8 [0, 3] (fun n => if n = 0 then 1 else 0) 4 QBFSCache.init
      = QBFSSag_build rho_grid0 8 ([0, 3].erase 3) (fun n => if n = 0 then 1 else 0) 4
          QBFSCache.init :=
  build_skips_zero_coefficient rho_grid0 8 [0, 3] (fun n => if n = 0 then 1 else 0) 3 4
    QBFSCache.init (by norm_num)

/-- A lookup that succeeds still succeeds after a new entry is prepended. -/
lemma dict_get_cons_isSome {α β : Type} [DecidableEq α] {k a : α} {v : β} {l : List (α × β)}
    (h : (dict_get k l).isSome = true) : (dict_get k ((a, v) :: l)).isSome = true := by
  simp only [dict_get]
  split
  · rfl
  · exact h

/-- get_grid never touches the P store. -/
lemma get_grid_Ps_unchanged (rho_grid : ℕ → ℚ → NDArr) (c : QBFSCache)
    (samples : ℕ) (rho_max : ℚ) :
    ((QBFSCache.get_grid rho_grid c samples rho_max).2).Ps = c.Ps := by
  rw [QBFSCache.get_grid]
  cases hda : dict_get (samples, rho_max) c.grids <;> simp [hda]

/-- After a get_PBFS call the requested key is present in the P store. -/
lemma get_PBFS_mem_self (rho_grid : ℕ → ℚ → NDArr) (c : QBFSCache)
    (m samples : ℕ) (rho_max : ℚ) :
    (dict_get (m, samples, rho_max)
      ((QBFSCache.get_PBFS rho_grid c m samples rho_max).2).Ps).isSome = true := by
  rw [QBFSCache.get_PBFS]
  cases hda : dict_get (m, samples, rho_max) c.Ps with
  | some P => simp [hda]
  | none =>
    by_cases hm : 2 < m
    · simp [hda, hm, dict_get]
    · simp [hda, hm, dict_get]

/-- get_PBFS only adds P entries, never removes one. -/
lemma get_PBFS_preserves (rho_grid : ℕ → ℚ → NDArr) :
    ∀ (m : ℕ) (c : QBFSCache) (samples : ℕ) (rho_max : ℚ) (k : ℕ × ℕ × ℚ),
      (dict_get k c.Ps).isSome = true →
      (dict_get k ((QBFSCache.get_PBFS rho_grid c m samples rho_max).2).Ps).isSome = true := by
  intro m
  induction m using Nat.strong_induction_on with
  | _ m ih =>
    intro c samples rho_max k hk
    rw [QBFSCache.get_PBFS]
    cases hda : dict_get (m, samples, rho_max) c.Ps with
    | some P => simpa [hda] using hk
    | none =>
      by_cases hm : 2 < m
      · simp only [hda, if_pos hm]
        refine dict_get_cons_isSome ?_
        refine ih (m - 1) (by omega) _ samples rho_max k ?_
        refine ih (m - 2) (by omega) _ samples rho_max k ?_
        rw [get_grid_Ps_unchanged]
        exact hk
      · simp only [hda, if_neg hm]
        refine dict_get_cons_isSome ?_
        rw [get_grid_Ps_unchanged]
        exact hk

/-- C9 counterexample: on a fresh cache, get_PBFS at order n = 2 stores only
order 2; neither order 1 nor order 0 is ensured, contradicting the claim for
every n at least 2. -/
theorem get_PBFS_order_two_skips_lower :
    dict_get (1, 4, 1) ((QBFSCache.get_PBFS rho_grid0 QBFSCache.init 2 4 1).2).Ps = none ∧
    dict_get (0, 4, 1) ((QBFSCache.get_PBFS rho_grid0 QBFSCache.init 2 4 1).2).Ps = none := by
  constructor <;>
  · rw [QBFSCache.get_PBFS]
    norm_num [dict_get, QBFSCache.get_grid, QBFSCache.init]

/-- C9 (amended): for every order n at least 3 whose key misses the P store,
after get_PBFS returns, the P store contains entries for orders n-1 and n-2
under the same (samples, rho_max): the two lower orders are recursively
ensured before order n is computed.  (For n = 2 the source computes the full
recurrence directly and ensures nothing, and on a hit it returns without
ensuring anything.) -/
theorem get_PBFS_ensures_lower_orders (rho_grid : ℕ → ℚ → NDArr) (c : QBFSCache)
    (n samples : ℕ) (rho_max : ℚ)
    (h3 : 3 ≤ n) (hmiss : dict_get (n, samples, rho_max) c.Ps = none) :
    (dict_get (n - 1, samples, rho_max)
      ((QBFSCache.get_PBFS rho_grid c n samples rho_max).2).Ps).isSome = true ∧
    (dict_get (n - 2, samples, rho_max)
      ((QBFSCache.get_PBFS rho_grid c n samples rho_max).2).Ps).isSome = true := by
  have hm : 2 < n := by omega
  rw [QBFSCache.get_PBFS]
  simp only [hmiss, if_pos hm]
  constructor
  · exact dict_get_cons_isSome (get_PBFS_mem_self rho_grid _ (n - 1) samples rho_max)
  · exact dict_get_cons_isSome
      (get_PBFS_preserves rho_grid (n - 1) _ samples rho_max _
        (get_PBFS_mem_self rho_grid _ (n - 2) samples rho_max))

/-- Witness for the amended lower-order claim: n = 3 on a fresh cache. -/
theorem get_PBFS_ensures_lower_orders_witness :
    (dict_get (3 - 1, 4, 1)
      ((QBFSCache.get_PBFS rho_grid0 QBFSCache.init 3 4 1).2).Ps).isSome = true ∧
    (dict_get (3 - 2, 4, 1)
      ((QBFSCache.get_PBFS rho_grid0 QBFSCache.init 3 4 1).2).Ps).isSome = true :=
  get_PBFS_ensures_lower_orders rho_grid0 QBFSCache.init 3 4 1 (by norm_num) rfl

/-- When every listed Q entry has an ndarray P entry and a grid entry, the
nbytes loop returns the accumulated sum of the three footprints per entry. -/
lemma nbytesLoop_eq_sum (Ps : List ((ℕ × ℕ × ℚ) × PyVal))
    (grids : List ((ℕ × ℚ) × NDArr)) :
    ∀ (l : List ((ℕ × ℕ × ℚ) × NDArr)) (n : ℕ),
      (∀ kv ∈ l, (∃ a, dict_get kv.1 Ps = some (PyVal.arr a)) ∧
        (dict_get kv.1.2 grids).isSome = true) →
      nbytesLoop Ps grids l n = Except.ok (n + (l.map (fun kv => kv.2.nbytes
        + ((dict_get kv.1 Ps).getD (PyVal.scalar 0)).arr_nbytes
        + ((dict_get kv.1.2 grids).getD ⟨0, 0, fun _ => 0⟩).nbytes)).sum) := by
  intro l
  induction l with
  | nil => intro n _; simp [nbytesLoop]
  | cons kv t ih =>
    intro n h
    obtain ⟨⟨a, ha⟩, hg⟩ := h kv (by simp)
    obtain ⟨g, hgg⟩ := Option.isSome_iff_exists.mp hg
    simp only [nbytesLoop, ha, hgg]
    rw [ih _ (fun kv' hkv' => h kv' (List.mem_cons_of_mem _ hkv'))]
    simp [ha, hgg, PyVal.arr_nbytes]
    omega

/-- If every listed Q entry has P and grid entries but some P entry is a
scalar, the nbytes loop ends in AttributeError. -/
lemma nbytesLoop_scalar_error (Ps : List ((ℕ × ℕ × ℚ) × PyVal))
    (grids : List ((ℕ × ℚ) × NDArr)) :
    ∀ (l : List ((ℕ × ℕ × ℚ) × NDArr)) (n : ℕ),
      (∀ kv ∈ l, (dict_get kv.1 Ps).isSome = true ∧
        (dict_get kv.1.2 grids).isSome = true) →
      (∃ kv ∈ l, ∃ v, dict_get kv.1 Ps = some (PyVal.scalar v)) →
      nbytesLoop Ps grids l n = Except.error PyErr.attributeError := by
  intro l
  induction l with
  | nil => intro n _ hex; simp at hex
  | cons kv t ih =>
    intro n hall hex
    obtain ⟨hP, hg⟩ := hall kv (by simp)
    cases hPv : dict_get kv.1 Ps with
    | none => rw [hPv] at hP; simp at hP
    | some p =>
      cases p with
      | scalar v => simp [nbytesLoop, hPv]
      | arr a =>
        obtain ⟨g, hgg⟩ := Option.isSome_iff_exists.mp hg
        simp only [nbytesLoop, hPv, hgg]
        apply ih
        · exact fun kv' h' => hall kv' (List.mem_cons_of_mem _ h')
        · obtain ⟨kv0, hkv0, v, hv⟩ := hex
          rcases List.mem_cons.mp hkv0 with h | h
          · subst h
            rw [hPv] at hv
            cases hv
          · exact ⟨kv0, h, v, hv⟩

/-- C10 counterexample: after a bare get_grid on a fresh Qbfs cache one array
(the 4 x 4 grid, 128 bytes) is cached, but nbytes reports 0 because it
iterates only over the keys of the Q store. -/
theorem nbytes_ignores_unkeyed_arrays :
    QBFSCache.nbytes ((QBFSCache.get_grid rho_grid0 QBFSCache.init 4 1).2) = Except.ok 0 ∧
    QBFSCache.byte_size_spec ((QBFSCache.get_grid rho_grid0 QBFSCache.init 4 1).2) = 128 := by
  constructor
  · rw [QBFSCache.get_grid]
    norm_num [dict_get, QBFSCache.init, QBFSCache.nbytes, nbytesLoop]
  · rw [QBFSCache.get_grid]
    norm_num [dict_get, QBFSCache.init, QBFSCache.byte_size_spec, NDArr.map, NDArr.nbytes,
      rho_grid0]

/-- C10 (amended): when every key of the Q store has an ndarray-valued P
entry and a grid entry, the byte-size diagnostic equals the sum, over the
entries of the Q store, of the footprint of the Q array plus the footprints
of the P array and of the grid stored under the same key (arrays cached in
the P or grid stores under keys with no Q entry are not counted, and a grid
shared by several Q keys is counted once per Q key); when the P entry of
some Q key is the cached order-0 scalar, the diagnostic instead raises
AttributeError, since a Python int has no nbytes attribute. -/
theorem nbytes_sums_over_Q_keys (cb : QBFSCache) (cc : QCONCache) :
    ((∀ kv ∈ cb.Qs, (∃ a, dict_get kv.1 cb.Ps = some (PyVal.arr a)) ∧
        (dict_get kv.1.2 cb.grids).isSome = true) →
      cb.nbytes = Except.ok ((cb.Qs.map (fun kv => kv.2.nbytes
        + ((dict_get kv.1 cb.Ps).getD (PyVal.scalar 0)).arr_nbytes
        + ((dict_get kv.1.2 cb.grids).getD ⟨0, 0, fun _ => 0⟩).nbytes)).sum)) ∧
    ((∀ kv ∈ cc.Qs, (∃ a, dict_get kv.1 cc.Ps = some (PyVal.arr a)) ∧
        (dict_get kv.1.2 cc.grids).isSome = true) →
      cc.nbytes = Except.ok ((cc.Qs.map (fun kv => kv.2.nbytes
        + ((dict_get kv.1 cc.Ps).getD (PyVal.scalar 0)).arr_nbytes
        + ((dict_get kv.1.2 cc.grids).getD ⟨0, 0, fun _ => 0⟩).nbytes)).sum)) ∧
    ((∀ kv ∈ cb.Qs, (dict_get kv.1 cb.Ps).isSome = true ∧
        (dict_get kv.1.2 cb.grids).isSome = true) →
      (∃ kv ∈ cb.Qs, ∃ v, dict_get kv.1 cb.Ps = some (PyVal.scalar v)) →
      cb.nbytes = Except.error PyErr.attributeError) ∧
    ((∀ kv ∈ cc.Qs, (dict_get kv.1 cc.Ps).isSome = true ∧
        (dict_get kv.1.2 cc.grids).isSome = true) →
      (∃ kv ∈ cc.Qs, ∃ v, dict_get kv.1 cc.Ps = some (PyVal.scalar v)) →
      cc.nbytes = Except.error PyErr.attributeError) := by
  refine ⟨?_, ?_, ?_, ?_⟩
  · intro h
    simpa [QBFSCache.nbytes] using nbytesLoop_eq_sum cb.Ps cb.grids cb.Qs 0 h
  · intro h
    simpa [QCONCache.nbytes] using nbytesLoop_eq_sum cc.Ps cc.grids cc.Qs 0 h
  · intro hall hex
    exact nbytesLoop_scalar_error cb.Ps cb.grids cb.Qs 0 hall hex
  · intro hall hex
    exact nbytesLoop_scalar_error cc.Ps cc.grids cc.Qs 0 hall hex

/-- A concrete 16-element, 8-bytes-per-element array for witness states. -/
def arr0 : NDArr := ⟨16, 8, fun _ => 0⟩

/-- Witness for the amended byte-size theorem: both caches with one Q entry
whose P entry is an array report 384 = 3 x 128 bytes, and both caches with
one Q entry of order 0, whose P entry is the cached scalar 2, raise
AttributeError. -/
theorem nbytes_sums_over_Q_keys_witness :
    QBFSCache.nbytes ⟨[((2, 4, 1), arr0)], [((2, 4, 1), PyVal.arr arr0)], [((4, 1), arr0)]⟩
      = Except.ok 384 ∧
    QCONCache.nbytes ⟨[((2, 4, 1), arr0)], [((2, 4, 1), PyVal.arr arr0)], [((4, 1), arr0)]⟩
      = Except.ok 384 ∧
    QBFSCache.nbytes ⟨[((0, 4, 1), arr0)], [((0, 4, 1), PyVal.scalar 2)], [((4, 1), arr0)]⟩
      = Except.error PyErr.attributeError ∧
    QCONCache.nbytes ⟨[((0, 4, 1), arr0)], [((0, 4, 1), PyVal.scalar 2)], [((4, 1), arr0)]⟩
      = Except.error PyErr.attributeError := by
  refine ⟨?_, ?_, ?_, ?_⟩
  · rw [(nbytes_sums_over_Q_keys
      ⟨[((2, 4, 1), arr0)], [((2, 4, 1), PyVal.arr arr0)], [((4, 1), arr0)]⟩
      ⟨[], [], []⟩).1 (by simp [dict_get])]
    norm_num [dict_get, NDArr.nbytes, PyVal.arr_nbytes, arr0]
  · rw [(nbytes_sums_over_Q_keys ⟨[], [], []⟩
      ⟨[((2, 4, 1), arr0)], [((2, 4, 1), PyVal.arr arr0)], [((4, 1), arr0)]⟩).2.1
      (by simp [dict_get])]
    norm_num [dict_get, NDArr.nbytes, PyVal.arr_nbytes, arr0]
  · exact (nbytes_sums_over_Q_keys
      ⟨[((0, 4, 1), arr0)], [((0, 4, 1), PyVal.scalar 2)], [((4, 1), arr0)]⟩
      ⟨[], [], []⟩).2.2.1 (by simp [dict_get]) (by simp [dict_get])
  · exact (nbytes_sums_over_Q_keys ⟨[], [], []⟩
      ⟨[((0, 4, 1), arr0)], [((0, 4, 1), PyVal.scalar 2)], [((4, 1), arr0)]⟩).2.2.2
      (by simp [dict_get]) (by simp [dict_get])

/-- The Qcon grid the concrete provider produces for samples = 4. -/
def uArr : NDArr := (rho_grid0 4 1).map (fun v => 2 * v ^ 2 - 1)

/-- The Q array of order 0 over that grid, with the cached scalar P(0) = 2
broadcast into the recurrence. -/
def QArr : NDArr := ⟨uArr.size, uArr.itemsize, fun i =>
  qbfs_recurrence_Q 0 (uArr.val i) (some 2) none none none none none⟩

/-- Evaluation of the Qcon grid getter on the fresh cache. -/
lemma qcon_eval_grid0 : QCONCache.get_grid rho_grid0 ⟨[], [], []⟩ 4 1
    = (uArr, ⟨[], [], [((4, 1), uArr)]⟩) := rfl

/-- Evaluation of the Qcon P getter at order 0 after the grid is cached: the
source caches the scalar 2. -/
lemma qcon_eval_P0 : QCONCache.get_PBFS rho_grid0 ⟨[], [], [((4, 1), uArr)]⟩ 0 4 1
    = (PyVal.scalar 2, ⟨[], [((0, 4, 1), PyVal.scalar 2)], [((4, 1), uArr)]⟩) := by
  rw [QCONCache.get_PBFS]
  rfl

/-- Evaluation of the Qcon Q getter at order 0 on the fresh cache. -/
lemma qcon_eval_Q0 : QCONCache.get_QCON rho_grid0 QCONCache.init 0 4 1
    = Except.ok (QArr, ⟨[((0, 4, 1), QArr)], [((0, 4, 1), PyVal.scalar 2)], [((4, 1), uArr)]⟩) := by
  unfold QCONCache.get_QCON
  norm_num [QCONCache.init, qcon_eval_grid0, qcon_eval_P0, dict_get, QArr, PyVal.el]

/-- C3 fails on the code for the Qcon family: with the single coefficient
A0 = 1 on a grid whose radial coordinate is 0 (the aperture center, where
rho^2 = 0), QCONSag.build produces the sag value -2, not 0: the Qcon cache
grid holds 2 rho^2 - 1, so the windowing factor evaluates to (-1)(1-(-1)) =
-2 at the center instead of 0.  (The Qbfs builder does vanish there.) -/
theorem QCONSag_build_nonzero_at_center :
    Except.map (fun p => p.1.val 0)
        (QCONSag_build rho_grid0 8 [0] (fun _ => 1) 4 QCONCache.init)
      = Except.ok (-2) ∧ ((-2 : ℝ) ≠ 0) := by
  constructor
  · norm_num [QCONSag_build, QPolySag1D_build_qcon, qconBuildStep, QCONCache.call, qcon_eval_Q0,
      dict_get, NDArr.map, rho_grid0, uArr, QArr, qbfs_recurrence_Q,
      List.insertionSort, List.orderedInsert, Except.map, QCONCache.get_grid]
  · norm_num

end
